import Mathlib

/-!
Verification of the GDP dashboard data pipeline (`app.py`).

The pipeline under study: `load_data` reads the long-format CSV, drops rows
with missing cells, coerces the year column to integers, sorts by
(Country, Year) and derives a per-country year-over-year growth column;
the sidebar selection filters the frame by country set and inclusive year
range; `calculate_cagr`/`cagr_df` aggregate one compound growth rate per
country; `top_cagr` ranks countries by CAGR descending.

Values are modelled as rationals (exact arithmetic in place of float64),
except for the CAGR itself, which uses real exponentiation. Float NaN and
the IEEE infinities arising from division by zero are modelled explicitly
in the `Growth` type; a NaN produced by `calculate_cagr` is modelled as
`Option.none`.
-/

/-- One cleaned observation: a (country, year, value) row of the long-format
table, after `dropna` and `astype(int)` on the year. -/
structure Obs where
  country : String
  year : Int
  value : ℚ
deriving DecidableEq, Repr

/-- A year-over-year growth cell as produced by `pct_change() * 100` on
float64 data: `undef` models a float NaN (the first row of a country's
group, or a 0/0), `posInf`/`negInf` model the IEEE infinities produced when
the previous value is 0 and the current one is not, `val g` an ordinary
finite percentage. -/
inductive Growth where
  | undef
  | posInf
  | negInf
  | val (g : ℚ)
deriving DecidableEq, Repr

/-- A row of the annotated frame returned by `load_data`: the observation
plus its `YoY_Growth_%` cell. -/
structure Ann where
  obs : Obs
  yoy : Growth
deriving DecidableEq, Repr

/-- A raw year cell: missing (NaN, removed by `dropna`), present but not
integer-coercible (on which `astype(int)` raises), or a numeric year. -/
inductive YearCell where
  | na
  | bad
  | val (y : Int)
deriving DecidableEq, Repr

/-- Whether the year cell is missing. -/
def YearCell.isNA : YearCell → Bool
  | .na => true
  | _ => false

/-- Whether the year cell is present but not integer-coercible. -/
def YearCell.isBad : YearCell → Bool
  | .bad => true
  | _ => false

/-- One raw CSV row: each field may be missing; the year may additionally be
non-coercible text. -/
structure RawRow where
  country : Option String
  year : YearCell
  value : Option ℚ
deriving DecidableEq, Repr

instance {ε α : Type} [DecidableEq ε] [DecidableEq α] : DecidableEq (Except ε α) := fun a b =>
  match a, b with
  | .ok x, .ok y => if h : x = y then .isTrue (by rw [h]) else .isFalse (by simp [h])
  | .error e, .error e' => if h : e = e' then .isTrue (by rw [h]) else .isFalse (by simp [h])
  | .ok _, .error _ => .isFalse (by simp)
  | .error _, .ok _ => .isFalse (by simp)

/-- `df.dropna()`: keep only the rows with no missing cell. -/
def dropnaRows (rows : List RawRow) : List RawRow :=
  rows.filter (fun r => r.country.isSome && !r.year.isNA && r.value.isSome)

/-- Extraction of one cleaned observation from a raw row with all three
cells present and a numeric year. -/
def extractRow (r : RawRow) : Option Obs :=
  match r.country, r.year, r.value with
  | some c, .val y, some v => some ⟨c, y, v⟩
  | _, _, _ => none

/-- `df["Year"] = df["Year"].astype(int)` plus record extraction: raises
(ValueError) when any remaining year cell is not integer-coercible,
otherwise yields the cleaned observations in row order. -/
def coerceYears (rows : List RawRow) : Except String (List Obs) :=
  if rows.any (fun r => r.year.isBad) then
    .error "invalid literal for int"
  else
    .ok (rows.filterMap extractRow)

/-- Strict lexicographic (code-point) comparison of country strings, the
order by which pandas sorts string keys. -/
def strLT (a b : String) : Prop :=
  List.lt a.data b.data

instance : DecidableRel strLT := fun a b =>
  List.hasDecidableLt a.data b.data

/-- The lexicographic (Country, Year) key ordering used by
`df.sort_values(["Country", "Year"])`; the multi-key sort is stable
(numpy `lexsort`), so it is modelled with the stable `List.insertionSort`. -/
def rowLE (a b : Obs) : Prop :=
  strLT a.country b.country ∨ (a.country = b.country ∧ a.year ≤ b.year)

instance : DecidableRel rowLE := fun a b => by
  unfold rowLE; infer_instance

/-- One cell of `groupby("Country")["GDP_per_capita_USD"].pct_change() * 100`:
given the previous value in the country's group (if any) and the current
value. With no previous row the cell is NaN; a zero previous value gives an
IEEE infinity (or NaN when the current value is also zero), mirroring
float64 division. -/
def pctCell (prev : Option ℚ) (cur : ℚ) : Growth :=
  match prev with
  | none => .undef
  | some p =>
    if p = 0 then
      if cur = 0 then .undef
      else if 0 < cur then .posInf else .negInf
    else .val ((cur - p) / p * 100)

/-- The traversal underlying the grouped `pct_change`: `seen` maps every
country encountered so far to its most recent value, so each row's growth is
computed against the nearest earlier row of the same country. -/
def annotateGo (seen : List (String × ℚ)) : List Obs → List Ann
  | [] => []
  | o :: rest =>
    ⟨o, pctCell (seen.lookup o.country) o.value⟩ ::
      annotateGo ((o.country, o.value) :: seen) rest

/-- The growth-annotation stage of `load_data` (app.py line 21). -/
def annotate (l : List Obs) : List Ann :=
  annotateGo [] l

/-- The (country, value) pairs of a prefix of the frame, most recent
first — the lookup state `annotateGo` has accumulated after consuming
that prefix. -/
def seenPairs (l : List Obs) : List (String × ℚ) :=
  (l.map (fun o => (o.country, o.value))).reverse

/-- The value `pct_change` divides by at row `i`: the value of the nearest
earlier row of the same country, if any. -/
def prevValue (l : List Obs) (i : ℕ) : Option ℚ :=
  match l[i]? with
  | none => none
  | some o => (seenPairs (l.take i)).lookup o.country

/-- `load_data` (app.py lines 16–22): drop rows with missing cells, coerce
the year column to integers (raising on non-coercible cells), sort by
(Country, Year) and append the per-country `YoY_Growth_%` column. -/
def load_data (rows : List RawRow) : Except String (List Ann) := do
  let obs ← coerceYears (dropnaRows rows)
  pure (annotate (List.insertionSort rowLE obs))

/-- The sidebar filter (app.py lines 47–50): rows whose country is in the
selected list and whose year lies in the inclusive slider range
(`Series.between` is inclusive on both ends). -/
def filtered (df : List Ann) (countries : List String) (lo hi : Int) : List Ann :=
  df.filter (fun a =>
    countries.contains a.obs.country && decide (lo ≤ a.obs.year) && decide (a.obs.year ≤ hi))

/-- One row of `cagr_df`: a country together with its defined compound
annual growth rate (a real per-year rate, not a percentage). -/
structure CagrResult where
  country : String
  cagr : ℝ

/-- `calculate_cagr` (app.py lines 55–61) on one country's group of filtered
rows: `start`/`end` are the first and last values in the group, `years` the
year span; the guard `years > 0 and start > 0` decides whether a rate is
computed, and `Option.none` models the `np.nan` returned otherwise.  The
power is real exponentiation, exact arithmetic replacing float64.  (For a
negative end value numpy would return NaN as well; the data model restricts
indicator values to be non-negative, where this translation is exact.) -/
noncomputable def calculate_cagr (group : List Ann) : Option ℝ :=
  match group.head?, group.getLast? with
  | some f, some l =>
    if 0 < l.obs.year - f.obs.year ∧ 0 < f.obs.value then
      some (((l.obs.value : ℝ) / (f.obs.value : ℝ)) ^
        ((1 : ℝ) / ((l.obs.year - f.obs.year : ℤ) : ℝ)) - 1)
    else none
  | _, _ => none

/-- The rows of one country's group under `filtered.groupby("Country")`:
the frame's rows of that country, in frame order. -/
def groupOf (df : List Ann) (c : String) : List Ann :=
  df.filter (fun a => a.obs.country = c)

/-- The group keys produced by `groupby("Country")` (default `sort=True`):
the distinct countries of the frame, sorted lexicographically. -/
def countryKeys (df : List Ann) : List String :=
  List.insertionSort (fun a b => ¬ strLT b a) ((df.map (fun a => a.obs.country)).dedup)

/-- `cagr_df` (app.py lines 63–68): apply `calculate_cagr` to every
country's group, then `dropna()` removes the countries whose result was
NaN, leaving one `(Country, CAGR)` row per country with a defined rate. -/
noncomputable def cagr_df (df : List Ann) : List CagrResult :=
  (countryKeys df).filterMap (fun c =>
    (calculate_cagr (groupOf df c)).map (fun v => ⟨c, v⟩))

/-- The descending-CAGR ordering used by
`cagr_df.sort_values("CAGR", ascending=False)`. -/
def cagrGE (a b : CagrResult) : Prop :=
  b.cagr ≤ a.cagr

noncomputable instance : DecidableRel cagrGE := fun a b =>
  Classical.propDecidable (cagrGE a b)

instance : IsTotal CagrResult cagrGE :=
  ⟨fun a b => le_total b.cagr a.cagr⟩

instance : IsTrans CagrResult cagrGE :=
  ⟨fun _ _ _ h h' => le_trans h' h⟩

/-- The sort in `top_cagr` (app.py line 124):
`cagr_df.sort_values("CAGR", ascending=False)` uses the default
`kind='quicksort'` argsort, which is not stable, so the order it leaves
rows of equal CAGR in is an implementation detail of numpy, not a
guarantee of the program.  The sort is therefore modelled as a relation:
`sortedDesc results sorted` holds of every frame `sort_values` may
return — some permutation of the rows that is ordered by CAGR
descending. -/
def sortedDesc (results sorted : List CagrResult) : Prop :=
  List.Perm sorted results ∧ sorted.Pairwise cagrGE

/-- `top_cagr` (app.py line 124):
`cagr_df.sort_values("CAGR", ascending=False).head(top_n)`.
`top_cagr results n out` holds of every list the program may bind to
`top_cagr`: the first `n` rows of some descending-sorted permutation of
`results`. -/
def top_cagr (results : List CagrResult) (n : ℕ) (out : List CagrResult) : Prop :=
  ∃ sorted, sortedDesc results sorted ∧ out = sorted.take n

/-! ### Helper lemmas about the CAGR aggregation -/

lemma mem_countryKeys {df : List Ann} {c : String} :
    c ∈ countryKeys df ↔ c ∈ df.map (fun a => a.obs.country) := by
  unfold countryKeys
  rw [List.mem_insertionSort, List.mem_dedup]

lemma mem_groupOf {df : List Ann} {c : String} {a : Ann} :
    a ∈ groupOf df c ↔ a ∈ df ∧ a.obs.country = c := by
  unfold groupOf
  rw [List.mem_filter]
  simp

lemma mem_country_of_head? {df : List Ann} {c : String} {f : Ann}
    (hf : (groupOf df c).head? = some f) :
    c ∈ df.map (fun a => a.obs.country) := by
  obtain ⟨ys, hys⟩ := List.head?_eq_some_iff.mp hf
  have hmem : f ∈ groupOf df c := by rw [hys]; exact List.mem_cons_self f ys
  obtain ⟨hdf, hcty⟩ := mem_groupOf.mp hmem
  exact List.mem_map.mpr ⟨f, hdf, hcty⟩

lemma mem_df_of_getLast? {df : List Ann} {c : String} {l : Ann}
    (hl : (groupOf df c).getLast? = some l) : l ∈ df := by
  obtain ⟨ys, hys⟩ := List.getLast?_eq_some_iff.mp hl
  have hmem : l ∈ groupOf df c := by
    rw [hys]; exact List.mem_append.mpr (Or.inr (List.mem_singleton.mpr rfl))
  exact (mem_groupOf.mp hmem).1

lemma mem_cagr_df_iff {df : List Ann} {r : CagrResult} :
    r ∈ cagr_df df ↔ ∃ c ∈ countryKeys df,
      (calculate_cagr (groupOf df c)).map (fun v => (⟨c, v⟩ : CagrResult)) = some r := by
  unfold cagr_df
  exact List.mem_filterMap

lemma cagr_df_eval {df : List Ann} {r : CagrResult} (h : r ∈ cagr_df df) :
    calculate_cagr (groupOf df r.country) = some r.cagr := by
  rcases mem_cagr_df_iff.mp h with ⟨c, _, hmap⟩
  rcases Option.map_eq_some'.mp hmap with ⟨v, hv, hr⟩
  rw [← hr]
  exact hv

lemma mem_cagr_df_of_eval {df : List Ann} {c : String} {v : ℝ}
    (hc : c ∈ df.map (fun a => a.obs.country))
    (h : calculate_cagr (groupOf df c) = some v) :
    (⟨c, v⟩ : CagrResult) ∈ cagr_df df :=
  mem_cagr_df_iff.mpr ⟨c, mem_countryKeys.mpr hc, by rw [h]; rfl⟩

lemma calculate_cagr_guard {g : List Ann} {f l : Ann}
    (hf : g.head? = some f) (hl : g.getLast? = some l)
    (h : 0 < l.obs.year - f.obs.year ∧ 0 < f.obs.value) :
    calculate_cagr g = some (((l.obs.value : ℝ) / (f.obs.value : ℝ)) ^
      ((1 : ℝ) / ((l.obs.year - f.obs.year : ℤ) : ℝ)) - 1) := by
  unfold calculate_cagr
  rw [hf, hl]
  simp only [if_pos h]

lemma calculate_cagr_isSome_iff {g : List Ann} :
    (∃ v, calculate_cagr g = some v) ↔
      ∃ f l, g.head? = some f ∧ g.getLast? = some l ∧
        0 < l.obs.year - f.obs.year ∧ 0 < f.obs.value := by
  unfold calculate_cagr
  cases hf : g.head? with
  | none => simp
  | some f =>
    cases hl : g.getLast? with
    | none => simp
    | some l =>
      by_cases h : 0 < l.obs.year - f.obs.year ∧ 0 < f.obs.value
      · simp only [if_pos h, Option.some.injEq]
        constructor
        · intro _
          exact ⟨f, l, rfl, rfl, h⟩
        · rintro ⟨f', l', hf', hl', _⟩
          exact ⟨_, rfl⟩
      · simp only [if_neg h]
        constructor
        · rintro ⟨v, hv⟩
          exact absurd hv (by simp)
        · rintro ⟨f', l', hf', hl', h'⟩
          cases Option.some.injEq .. ▸ hf' with
          | refl => exact absurd (by cases hf'; cases hl'; exact h') h

/-! ### Helper lemmas about the growth annotator and the loader -/

lemma annotateGo_length (seen : List (String × ℚ)) (l : List Obs) :
    (annotateGo seen l).length = l.length := by
  induction l generalizing seen with
  | nil => rfl
  | cons o rest ih => simp [annotateGo, ih]

lemma annotateGo_map_obs (seen : List (String × ℚ)) (l : List Obs) :
    (annotateGo seen l).map Ann.obs = l := by
  induction l generalizing seen with
  | nil => rfl
  | cons o rest ih => simp [annotateGo, ih]

lemma annotate_map_obs (l : List Obs) : (annotate l).map Ann.obs = l :=
  annotateGo_map_obs [] l

lemma annotate_length (l : List Obs) : (annotate l).length = l.length :=
  annotateGo_length [] l

lemma annotateGo_getElem? (seen : List (String × ℚ)) (l : List Obs) (i : ℕ) (o : Obs)
    (ho : l[i]? = some o) :
    (annotateGo seen l)[i]? =
      some ⟨o, pctCell ((seenPairs (l.take i) ++ seen).lookup o.country) o.value⟩ := by
  induction l generalizing seen i with
  | nil => simp at ho
  | cons x xs ih =>
    cases i with
    | zero =>
      obtain rfl : x = o := by simpa using ho
      simp [annotateGo, seenPairs]
    | succ j =>
      have ho' : xs[j]? = some o := by simpa using ho
      have hseen : seenPairs ((x :: xs).take (j + 1)) ++ seen
          = seenPairs (xs.take j) ++ ((x.country, x.value) :: seen) := by
        simp [seenPairs, List.take_succ_cons, List.append_assoc]
      simp only [annotateGo, List.getElem?_cons_succ]
      rw [ih ((x.country, x.value) :: seen) j ho', hseen]

lemma annotate_getElem? (l : List Obs) (i : ℕ) (o : Obs) (ho : l[i]? = some o) :
    (annotate l)[i]? = some ⟨o, pctCell (prevValue l i) o.value⟩ := by
  have h := annotateGo_getElem? [] l i o ho
  rw [List.append_nil] at h
  rw [annotate, h]
  unfold prevValue
  rw [ho]

lemma strLT_iff {a b : String} : strLT a b ↔ a.data < b.data :=
  List.lt_iff_lex_lt a.data b.data

instance : IsTrans Obs rowLE :=
  ⟨by
    intro a b c hab hbc
    rcases hab with h1 | ⟨e1, y1⟩ <;> rcases hbc with h2 | ⟨e2, y2⟩
    · exact Or.inl (strLT_iff.mpr (lt_trans (strLT_iff.mp h1) (strLT_iff.mp h2)))
    · exact Or.inl (e2 ▸ h1)
    · refine Or.inl ?_
      rwa [← e1] at h2
    · exact Or.inr ⟨e1.trans e2, le_trans y1 y2⟩⟩

instance : IsTotal Obs rowLE :=
  ⟨by
    intro a b
    rcases lt_trichotomy a.country.data b.country.data with h | h | h
    · exact Or.inl (Or.inl (strLT_iff.mpr h))
    · have hc : a.country = b.country := String.toList_inj.mp h
      rcases le_total a.year b.year with hy | hy
      · exact Or.inl (Or.inr ⟨hc, hy⟩)
      · exact Or.inr (Or.inr ⟨hc.symm, hy⟩)
    · exact Or.inr (Or.inl (strLT_iff.mpr h))⟩

/-- A stable sort leaves the rows sharing one sort key exactly where the
input had them: filtering the sorted list by a predicate that only holds
inside one equivalence class of the order gives the input's filtered
rows unchanged. -/
lemma insertionSort_filter_fixed {α : Type} (r : α → α → Prop) [DecidableRel r]
    [IsTotal α r] [IsTrans α r] (l : List α) (p : α → Bool)
    (hp : ∀ a b, p a = true → p b = true → r a b) :
    (List.insertionSort r l).filter p = l.filter p := by
  have hperm := (List.perm_insertionSort r l).filter p
  have hpw : (l.filter p).Pairwise r :=
    List.pairwise_of_forall_mem_list (fun a ha b hb =>
      hp a b (List.mem_filter.mp ha).2 (List.mem_filter.mp hb).2)
  have hsub := List.sublist_insertionSort hpw (List.filter_sublist l)
  have hsub2 := hsub.filter p
  rw [List.filter_eq_self.mpr (fun a ha => (List.mem_filter.mp ha).2)] at hsub2
  exact (hsub2.eq_of_length hperm.length_eq.symm).symm

lemma load_data_ok_inv {rows : List RawRow} {out : List Ann}
    (h : load_data rows = .ok out) :
    (dropnaRows rows).any (fun r => r.year.isBad) = false ∧
    out = annotate (List.insertionSort rowLE ((dropnaRows rows).filterMap extractRow)) := by
  unfold load_data coerceYears at h
  by_cases hbad : (dropnaRows rows).any (fun r => r.year.isBad)
  · rw [if_pos hbad] at h
    exact absurd h (by simp [Bind.bind, Except.bind])
  · rw [if_neg hbad] at h
    simp only [Bind.bind, Except.bind, pure, Except.pure, Except.ok.injEq] at h
    exact ⟨by simpa using hbad, h.symm⟩

lemma load_data_error_of_bad {rows : List RawRow}
    (hbad : (dropnaRows rows).any (fun r => r.year.isBad) = true) :
    load_data rows = .error "invalid literal for int" := by
  unfold load_data coerceYears
  rw [if_pos hbad]
  rfl

/-! ### Claim theorems -/

/-- C1: for every country present in the filtered observations, the CAGR
aggregation produces a result for that country if and only if
`span = last.year - first.year > 0` and `first.value > 0`, with first/last
taken over the country's rows of the filtered frame; otherwise the country
is entirely absent from `cagr_df`. -/
theorem cagr_validity_policy (df : List Ann) (hval : ∀ a ∈ df, 0 ≤ a.obs.value)
    (c : String) (hc : c ∈ df.map (fun a => a.obs.country)) :
    (∃ r ∈ cagr_df df, r.country = c) ↔
      ∃ f l, (groupOf df c).head? = some f ∧ (groupOf df c).getLast? = some l ∧
        0 < l.obs.year - f.obs.year ∧ 0 < f.obs.value := by
  rw [← calculate_cagr_isSome_iff]
  constructor
  · rintro ⟨r, hr, hrc⟩
    subst hrc
    exact ⟨r.cagr, cagr_df_eval hr⟩
  · rintro ⟨v, hv⟩
    exact ⟨⟨c, v⟩, mem_cagr_df_of_eval hc hv, rfl⟩

/-- Witness for C1: a two-year country "A" (present, guard holds) on a
concrete dataset. -/
theorem cagr_validity_policy_witness :
    (∀ a ∈ [Ann.mk (Obs.mk "A" 2000 1) .undef, Ann.mk (Obs.mk "A" 2001 2) .undef],
      0 ≤ a.obs.value) ∧
    ("A" ∈ [Ann.mk (Obs.mk "A" 2000 1) .undef,
      Ann.mk (Obs.mk "A" 2001 2) .undef].map (fun a => a.obs.country)) ∧
    ((∃ r ∈ cagr_df [Ann.mk (Obs.mk "A" 2000 1) .undef,
        Ann.mk (Obs.mk "A" 2001 2) .undef], r.country = "A") ↔
      ∃ f l,
        (groupOf [Ann.mk (Obs.mk "A" 2000 1) .undef,
          Ann.mk (Obs.mk "A" 2001 2) .undef] "A").head? = some f ∧
        (groupOf [Ann.mk (Obs.mk "A" 2000 1) .undef,
          Ann.mk (Obs.mk "A" 2001 2) .undef] "A").getLast? = some l ∧
        0 < l.obs.year - f.obs.year ∧ 0 < f.obs.value) :=
  ⟨by decide, by decide,
    cagr_validity_policy _ (by decide) "A" (by decide)⟩

/-- C2: for every country whose filtered rows satisfy the validity policy,
the computed CAGR equals `(last.value / first.value) ^ (1/span) - 1`, using
only the first and last rows of the filtered window; equivalently
`(1 + cagr) ^ span * first.value = last.value`. -/
theorem cagr_endpoint_formula (df : List Ann) (c : String)
    (hval : ∀ a ∈ df, 0 ≤ a.obs.value) (f l : Ann)
    (hf : (groupOf df c).head? = some f) (hl : (groupOf df c).getLast? = some l)
    (hspan : 0 < l.obs.year - f.obs.year) (hstart : 0 < f.obs.value) :
    ∃ r ∈ cagr_df df, r.country = c ∧
      r.cagr = ((l.obs.value : ℝ) / (f.obs.value : ℝ)) ^
        ((1 : ℝ) / ((l.obs.year - f.obs.year : ℤ) : ℝ)) - 1 ∧
      (1 + r.cagr) ^ (l.obs.year - f.obs.year).toNat * (f.obs.value : ℝ) =
        (l.obs.value : ℝ) := by
  have hr := calculate_cagr_guard hf hl ⟨hspan, hstart⟩
  have hc := mem_country_of_head? hf
  refine ⟨⟨c, _⟩, mem_cagr_df_of_eval hc hr, rfl, rfl, ?_⟩
  have hfpos : (0 : ℝ) < (f.obs.value : ℝ) := by exact_mod_cast hstart
  have hlval : (0 : ℝ) ≤ (l.obs.value : ℝ) := by
    exact_mod_cast hval l (mem_df_of_getLast? hl)
  have hx : (0 : ℝ) ≤ (l.obs.value : ℝ) / (f.obs.value : ℝ) :=
    div_nonneg hlval (le_of_lt hfpos)
  have hsne : ((l.obs.year - f.obs.year : ℤ) : ℝ) ≠ 0 := by
    exact_mod_cast ne_of_gt hspan
  have hn : (((l.obs.year - f.obs.year).toNat : ℕ) : ℝ) =
      ((l.obs.year - f.obs.year : ℤ) : ℝ) := by
    rw [← Int.cast_natCast, Int.toNat_of_nonneg (le_of_lt hspan)]
  have h1 : (1 : ℝ) + (((l.obs.value : ℝ) / (f.obs.value : ℝ)) ^
      ((1 : ℝ) / ((l.obs.year - f.obs.year : ℤ) : ℝ)) - 1) =
      ((l.obs.value : ℝ) / (f.obs.value : ℝ)) ^
        ((1 : ℝ) / ((l.obs.year - f.obs.year : ℤ) : ℝ)) := by ring
  rw [h1, ← Real.rpow_natCast (((l.obs.value : ℝ) / (f.obs.value : ℝ)) ^
      ((1 : ℝ) / ((l.obs.year - f.obs.year : ℤ) : ℝ))) ((l.obs.year - f.obs.year).toNat),
    ← Real.rpow_mul hx, hn, one_div, inv_mul_cancel₀ hsne, Real.rpow_one]
  exact div_mul_cancel₀ _ (ne_of_gt hfpos)

/-- Witness for C2: country "A" goes from 1 to 4 over two years on a
concrete dataset. -/
theorem cagr_endpoint_formula_witness :
    (∀ a ∈ [Ann.mk (Obs.mk "A" 2000 1) .undef, Ann.mk (Obs.mk "A" 2002 4) .undef],
      0 ≤ a.obs.value) ∧
    ((groupOf [Ann.mk (Obs.mk "A" 2000 1) .undef,
      Ann.mk (Obs.mk "A" 2002 4) .undef] "A").head? =
        some (Ann.mk (Obs.mk "A" 2000 1) .undef)) ∧
    ((groupOf [Ann.mk (Obs.mk "A" 2000 1) .undef,
      Ann.mk (Obs.mk "A" 2002 4) .undef] "A").getLast? =
        some (Ann.mk (Obs.mk "A" 2002 4) .undef)) ∧
    (0 < (Ann.mk (Obs.mk "A" 2002 4) .undef).obs.year -
      (Ann.mk (Obs.mk "A" 2000 1) .undef).obs.year) ∧
    (0 < (Ann.mk (Obs.mk "A" 2000 1) .undef).obs.value) ∧
    (∃ r ∈ cagr_df [Ann.mk (Obs.mk "A" 2000 1) .undef,
        Ann.mk (Obs.mk "A" 2002 4) .undef], r.country = "A" ∧
      r.cagr = (((Ann.mk (Obs.mk "A" 2002 4) .undef).obs.value : ℝ) /
          ((Ann.mk (Obs.mk "A" 2000 1) .undef).obs.value : ℝ)) ^
        ((1 : ℝ) / (((Ann.mk (Obs.mk "A" 2002 4) .undef).obs.year -
          (Ann.mk (Obs.mk "A" 2000 1) .undef).obs.year : ℤ) : ℝ)) - 1 ∧
      (1 + r.cagr) ^ ((Ann.mk (Obs.mk "A" 2002 4) .undef).obs.year -
          (Ann.mk (Obs.mk "A" 2000 1) .undef).obs.year).toNat *
        (((Ann.mk (Obs.mk "A" 2000 1) .undef).obs.value : ℝ)) =
        (((Ann.mk (Obs.mk "A" 2002 4) .undef).obs.value : ℝ))) :=
  ⟨by decide, by decide, by decide, by decide, by decide,
    cagr_endpoint_formula _ "A" (by decide) _ _ (by decide) (by decide)
      (by decide) (by decide)⟩

/-- C10: the validity guard inspects only the span and the first value; a
country whose window ends at value 0 (with positive span and positive first
value) is still present in `cagr_df`, with CAGR exactly -1. -/
theorem cagr_zero_last_value (df : List Ann) (c : String)
    (hval : ∀ a ∈ df, 0 ≤ a.obs.value) (f l : Ann)
    (hf : (groupOf df c).head? = some f) (hl : (groupOf df c).getLast? = some l)
    (hspan : 0 < l.obs.year - f.obs.year) (hstart : 0 < f.obs.value)
    (hzero : l.obs.value = 0) :
    ∃ r ∈ cagr_df df, r.country = c ∧ r.cagr = -1 := by
  have hr := calculate_cagr_guard hf hl ⟨hspan, hstart⟩
  have hsne : ((l.obs.year - f.obs.year : ℤ) : ℝ) ≠ 0 := by
    exact_mod_cast ne_of_gt hspan
  rw [hzero] at hr
  rw [show (((0 : ℚ) : ℝ) / (f.obs.value : ℝ)) = 0 by rw [Rat.cast_zero, zero_div],
    Real.zero_rpow (one_div_ne_zero hsne), zero_sub] at hr
  exact ⟨⟨c, -1⟩, mem_cagr_df_of_eval (mem_country_of_head? hf) hr, rfl, rfl⟩

/-- Witness for C10: country "A" falls from 1 to 0 over one year on a
concrete dataset; it is ranked, with CAGR -1. -/
theorem cagr_zero_last_value_witness :
    (∀ a ∈ [Ann.mk (Obs.mk "A" 2000 1) .undef, Ann.mk (Obs.mk "A" 2001 0) .posInf],
      0 ≤ a.obs.value) ∧
    ((groupOf [Ann.mk (Obs.mk "A" 2000 1) .undef,
      Ann.mk (Obs.mk "A" 2001 0) .posInf] "A").head? =
        some (Ann.mk (Obs.mk "A" 2000 1) .undef)) ∧
    ((groupOf [Ann.mk (Obs.mk "A" 2000 1) .undef,
      Ann.mk (Obs.mk "A" 2001 0) .posInf] "A").getLast? =
        some (Ann.mk (Obs.mk "A" 2001 0) .posInf)) ∧
    (∃ r ∈ cagr_df [Ann.mk (Obs.mk "A" 2000 1) .undef,
        Ann.mk (Obs.mk "A" 2001 0) .posInf], r.country = "A" ∧ r.cagr = -1) :=
  ⟨by decide, by decide, by decide,
    cagr_zero_last_value _ "A" (by decide)
      (Ann.mk (Obs.mk "A" 2000 1) .undef) (Ann.mk (Obs.mk "A" 2001 0) .posInf)
      (by decide) (by decide) (by decide) (by decide) (by decide)⟩

/-- C5: the sidebar filter returns exactly the subsequence of rows whose
country is selected and whose year lies in the inclusive range; order is
preserved (a sublist of the input); an empty country set or an inverted
range yields the empty sequence, not an error. -/
theorem filtered_contract (df : List Ann) (countries : List String) (lo hi : ℤ) :
    (filtered df countries lo hi).Sublist df ∧
    (∀ a, a ∈ filtered df countries lo hi ↔
      a ∈ df ∧ a.obs.country ∈ countries ∧ lo ≤ a.obs.year ∧ a.obs.year ≤ hi) ∧
    (countries = [] → filtered df countries lo hi = []) ∧
    (hi < lo → filtered df countries lo hi = []) := by
  refine ⟨List.filter_sublist df, ?_, ?_, ?_⟩
  · intro a
    unfold filtered
    rw [List.mem_filter]
    simp [and_assoc]
  · intro h
    subst h
    unfold filtered
    exact List.filter_eq_nil_iff.mpr (by simp)
  · intro h
    unfold filtered
    refine List.filter_eq_nil_iff.mpr ?_
    intro a _
    simp only [Bool.and_eq_true, decide_eq_true_eq, not_and]
    rintro ⟨_, h1⟩ h2
    omega

/-- Witness for C5: the empty-country-set and inverted-range clauses at a
concrete dataset and selection. -/
theorem filtered_contract_witness :
    (Ann.mk (Obs.mk "A" 2000 1) .undef ∈
      filtered [Ann.mk (Obs.mk "A" 2000 1) .undef] ["A"] 1999 2005 ↔
      Ann.mk (Obs.mk "A" 2000 1) .undef ∈ [Ann.mk (Obs.mk "A" 2000 1) .undef] ∧
        (Ann.mk (Obs.mk "A" 2000 1) .undef).obs.country ∈ ["A"] ∧
        1999 ≤ (Ann.mk (Obs.mk "A" 2000 1) .undef).obs.year ∧
        (Ann.mk (Obs.mk "A" 2000 1) .undef).obs.year ≤ 2005) ∧
    (([] : List String) = [] → filtered [Ann.mk (Obs.mk "A" 2000 1) .undef] [] 1999 2005 = []) ∧
    ((2005 : ℤ) < 2010 → filtered [Ann.mk (Obs.mk "A" 2000 1) .undef] ["A"] 2010 2005 = []) :=
  ⟨(filtered_contract [Ann.mk (Obs.mk "A" 2000 1) .undef] ["A"] 1999 2005).2.1 _,
    fun h => (filtered_contract [Ann.mk (Obs.mk "A" 2000 1) .undef] [] 1999 2005).2.2.1 h,
    fun h => (filtered_contract [Ann.mk (Obs.mk "A" 2000 1) .undef] ["A"] 2010 2005).2.2.2 h⟩

/-- C9: filtering an already-filtered sequence again with the same
selection yields the same sequence. -/
theorem filtered_idempotent (df : List Ann) (countries : List String) (lo hi : ℤ) :
    filtered (filtered df countries lo hi) countries lo hi =
      filtered df countries lo hi := by
  unfold filtered
  rw [List.filter_filter]
  exact List.filter_congr (fun a _ => Bool.and_self _)

/-- Counterexample to C6: the program's sort contract (an unspecified-tie
descending sort, since `kind='quicksort'` is not stable) admits an output
in which two rows of equal CAGR appear in the reverse of their input
order, so ties are not guaranteed to be broken stably by input order. -/
theorem top_cagr_tie_counterexample :
    top_cagr [CagrResult.mk "A" 0, CagrResult.mk "B" 0] 2
      [CagrResult.mk "B" 0, CagrResult.mk "A" 0] ∧
    [CagrResult.mk "B" (0 : ℝ), CagrResult.mk "A" 0] ≠
      [CagrResult.mk "A" 0, CagrResult.mk "B" 0] := by
  constructor
  · refine ⟨[CagrResult.mk "B" 0, CagrResult.mk "A" 0],
      ⟨List.Perm.swap _ _ _, ?_⟩, rfl⟩
    simp [List.pairwise_cons, cagrGE]
  · intro h
    simp [CagrResult.mk.injEq] at h

/-- C6 (amended): every output the ranking may produce has length
`min n (number of results)` and is sorted by CAGR descending, and an
output exists for every input; the order among rows of equal CAGR is
unspecified (the default quicksort argsort is not stable), so no
tie-break policy is part of the contract. -/
theorem top_cagr_spec (results : List CagrResult) (n : ℕ) :
    (∀ out, top_cagr results n out →
      out.length = min n results.length ∧ out.Pairwise cagrGE) ∧
    ∃ out, top_cagr results n out := by
  constructor
  · rintro out ⟨sorted, ⟨hperm, hpw⟩, rfl⟩
    constructor
    · rw [List.length_take, hperm.length_eq]
    · exact List.Pairwise.sublist (List.take_sublist n sorted) hpw
  · exact ⟨(List.insertionSort cagrGE results).take n,
      List.insertionSort cagrGE results,
      ⟨List.perm_insertionSort cagrGE results,
        List.sorted_insertionSort cagrGE results⟩, rfl⟩

/-- Witness for C6 (amended): a concrete valid output of the ranking on a
two-row input with `n = 1`, with its length and sortedness, and the
existence of an output. -/
theorem top_cagr_spec_witness :
    ([CagrResult.mk "A" (1 : ℝ)].length =
      min 1 [CagrResult.mk "A" (1 : ℝ), CagrResult.mk "B" 0].length ∧
      [CagrResult.mk "A" (1 : ℝ)].Pairwise cagrGE) ∧
    ∃ out, top_cagr [CagrResult.mk "A" (1 : ℝ), CagrResult.mk "B" 0] 1 out :=
  ⟨(top_cagr_spec [CagrResult.mk "A" 1, CagrResult.mk "B" 0] 1).1
      [CagrResult.mk "A" 1]
      ⟨[CagrResult.mk "A" 1, CagrResult.mk "B" 0],
        ⟨List.Perm.refl _, by simp [List.pairwise_cons, cagrGE]⟩, rfl⟩,
    (top_cagr_spec [CagrResult.mk "A" 1, CagrResult.mk "B" 0] 1).2⟩

/-- C3: annotation preserves length and order; the first row of a
country's run gets an undefined (NaN) growth cell, and any later row whose
predecessor (the nearest earlier row of the same country in the sorted
sequence, spanning calendar gaps) has nonzero value gets
`(value[i] - value[i-1]) / value[i-1] * 100`. -/
theorem annotate_spec (l : List Obs) (i : ℕ) (o : Obs) (ho : l[i]? = some o) :
    (annotate l).length = l.length ∧
    (annotate l).map Ann.obs = l ∧
    (prevValue l i = none → (annotate l)[i]? = some ⟨o, Growth.undef⟩) ∧
    (∀ p : ℚ, prevValue l i = some p → p ≠ 0 →
      (annotate l)[i]? = some ⟨o, Growth.val ((o.value - p) / p * 100)⟩) := by
  refine ⟨annotateGo_length [] l, annotate_map_obs l, ?_, ?_⟩
  · intro hp
    rw [annotate_getElem? l i o ho, hp]
    rfl
  · intro p hp hpne
    rw [annotate_getElem? l i o ho, hp]
    simp [pctCell, hpne]

/-- Witness for C3: the second row of a two-row country "A" grows from 50
to 60, i.e. by `(60 - 50) / 50 * 100` percent. -/
theorem annotate_spec_witness :
    ([Obs.mk "A" 2000 50, Obs.mk "A" 2001 60][1]? = some (Obs.mk "A" 2001 60)) ∧
    (annotate [Obs.mk "A" 2000 50, Obs.mk "A" 2001 60]).length =
      [Obs.mk "A" 2000 50, Obs.mk "A" 2001 60].length ∧
    (annotate [Obs.mk "A" 2000 50, Obs.mk "A" 2001 60]).map Ann.obs =
      [Obs.mk "A" 2000 50, Obs.mk "A" 2001 60] ∧
    (prevValue [Obs.mk "A" 2000 50, Obs.mk "A" 2001 60] 1 = some 50) ∧
    (annotate [Obs.mk "A" 2000 50, Obs.mk "A" 2001 60])[1]? =
      some ⟨Obs.mk "A" 2001 60, Growth.val ((60 - 50) / 50 * 100)⟩ :=
  ⟨by decide,
    (annotate_spec [Obs.mk "A" 2000 50, Obs.mk "A" 2001 60] 1
      (Obs.mk "A" 2001 60) (by decide)).1,
    (annotate_spec [Obs.mk "A" 2000 50, Obs.mk "A" 2001 60] 1
      (Obs.mk "A" 2001 60) (by decide)).2.1,
    by decide,
    (annotate_spec [Obs.mk "A" 2000 50, Obs.mk "A" 2001 60] 1
      (Obs.mk "A" 2001 60) (by decide)).2.2.2 50 (by decide) (by decide)⟩

/-- Counterexample to C7: a predecessor value of 0 with a positive current
value yields an infinite growth cell (float `inf`), not an undefined one. -/
theorem yoy_zero_prev_counterexample :
    prevValue [Obs.mk "A" 2000 0, Obs.mk "A" 2001 5] 1 = some 0 ∧
    (annotate [Obs.mk "A" 2000 0, Obs.mk "A" 2001 5]).map Ann.yoy =
      [Growth.undef, Growth.posInf] ∧
    Growth.posInf ≠ Growth.undef := by
  refine ⟨by decide, by decide, by decide⟩

/-- C7 (amended): when the predecessor value in the country's run is 0 the
growth cell is an IEEE infinity whose sign follows the current value, and
it is NaN (undefined) only when the current value is also 0; in no case is
an error raised — the annotator stays total. -/
theorem yoy_zero_prev_infinite (l : List Obs) (i : ℕ) (o : Obs)
    (ho : l[i]? = some o) (hp : prevValue l i = some 0) :
    (annotate l)[i]? = some ⟨o, if o.value = 0 then Growth.undef
      else if 0 < o.value then Growth.posInf else Growth.negInf⟩ := by
  rw [annotate_getElem? l i o ho, hp]
  simp [pctCell]

/-- Witness for C7 (amended): the concrete run 0 → 5 produces `inf`. -/
theorem yoy_zero_prev_infinite_witness :
    ([Obs.mk "A" 2000 0, Obs.mk "A" 2001 5][1]? = some (Obs.mk "A" 2001 5)) ∧
    (prevValue [Obs.mk "A" 2000 0, Obs.mk "A" 2001 5] 1 = some 0) ∧
    (annotate [Obs.mk "A" 2000 0, Obs.mk "A" 2001 5])[1]? =
      some ⟨Obs.mk "A" 2001 5, if (Obs.mk "A" 2001 5).value = 0 then Growth.undef
        else if 0 < (Obs.mk "A" 2001 5).value then Growth.posInf else Growth.negInf⟩ :=
  ⟨by decide, by decide,
    yoy_zero_prev_infinite [Obs.mk "A" 2000 0, Obs.mk "A" 2001 5] 1
      (Obs.mk "A" 2001 5) (by decide) (by decide)⟩

/-- Counterexample to C4: the loader sorts countries lexicographically, not
in first-seen input order ("B" is seen first but comes out last), and it
keeps both rows of a duplicated (country, year) pair, so the pair is not
unique in the output. -/
theorem load_data_order_counterexample :
    (load_data [RawRow.mk (some "B") (.val 2000) (some 1),
        RawRow.mk (some "A") (.val 2000) (some 50),
        RawRow.mk (some "A") (.val 2000) (some 60)]).map
      (fun out => out.map (fun a => (a.obs.country, a.obs.year))) =
      Except.ok [("A", 2000), ("A", 2000), ("B", 2000)] ∧
    ¬ ([("A", 2000), ("A", 2000), ("B", 2000)] : List (String × ℤ)).Nodup := by
  exact ⟨by rfl, by decide⟩

/-- C4 (amended): the loader's output is the stable lexicographic
(Country, Year) sort of the cleaned rows: grouped by country in
lexicographic order with years ascending inside a group, every cleaned row
kept (rows duplicated on (country, year) included), and rows sharing a
(country, year) key staying in input order. -/
theorem load_data_sorted_stable (rows : List RawRow) (out : List Ann)
    (h : load_data rows = .ok out) :
    (out.map Ann.obs).Pairwise rowLE ∧
    List.Perm (out.map Ann.obs) ((dropnaRows rows).filterMap extractRow) ∧
    ∀ c : String, ∀ y : ℤ,
      (out.map Ann.obs).filter (fun o => decide (o.country = c ∧ o.year = y)) =
        ((dropnaRows rows).filterMap extractRow).filter
          (fun o => decide (o.country = c ∧ o.year = y)) := by
  obtain ⟨-, rfl⟩ := load_data_ok_inv h
  rw [annotate_map_obs]
  refine ⟨List.sorted_insertionSort rowLE _, List.perm_insertionSort rowLE _, ?_⟩
  intro c y
  refine insertionSort_filter_fixed rowLE _ _ ?_
  intro a b ha hb
  have ha' : a.country = c ∧ a.year = y := by simpa using ha
  have hb' : b.country = c ∧ b.year = y := by simpa using hb
  exact Or.inr ⟨ha'.1.trans hb'.1.symm, le_of_eq (ha'.2.trans hb'.2.symm)⟩

/-- Witness for C4 (amended): the three-row input of the counterexample,
with its concrete sorted output. -/
theorem load_data_sorted_stable_witness :
    (load_data [RawRow.mk (some "B") (.val 2000) (some 1),
        RawRow.mk (some "A") (.val 2000) (some 50),
        RawRow.mk (some "A") (.val 2000) (some 60)] =
      .ok [Ann.mk (Obs.mk "A" 2000 50) .undef,
        Ann.mk (Obs.mk "A" 2000 60) (.val ((60 - 50) / 50 * 100)),
        Ann.mk (Obs.mk "B" 2000 1) .undef]) ∧
    ([Ann.mk (Obs.mk "A" 2000 50) .undef,
        Ann.mk (Obs.mk "A" 2000 60) (.val ((60 - 50) / 50 * 100)),
        Ann.mk (Obs.mk "B" 2000 1) .undef].map Ann.obs).Pairwise rowLE ∧
    List.Perm ([Ann.mk (Obs.mk "A" 2000 50) .undef,
        Ann.mk (Obs.mk "A" 2000 60) (.val ((60 - 50) / 50 * 100)),
        Ann.mk (Obs.mk "B" 2000 1) .undef].map Ann.obs)
      ((dropnaRows [RawRow.mk (some "B") (.val 2000) (some 1),
        RawRow.mk (some "A") (.val 2000) (some 50),
        RawRow.mk (some "A") (.val 2000) (some 60)]).filterMap extractRow) ∧
    ([Ann.mk (Obs.mk "A" 2000 50) .undef,
        Ann.mk (Obs.mk "A" 2000 60) (.val ((60 - 50) / 50 * 100)),
        Ann.mk (Obs.mk "B" 2000 1) .undef].map Ann.obs).filter
        (fun o => decide (o.country = "A" ∧ o.year = 2000)) =
      ((dropnaRows [RawRow.mk (some "B") (.val 2000) (some 1),
        RawRow.mk (some "A") (.val 2000) (some 50),
        RawRow.mk (some "A") (.val 2000) (some 60)]).filterMap extractRow).filter
        (fun o => decide (o.country = "A" ∧ o.year = 2000)) :=
  ⟨by rfl,
    (load_data_sorted_stable [RawRow.mk (some "B") (.val 2000) (some 1),
        RawRow.mk (some "A") (.val 2000) (some 50),
        RawRow.mk (some "A") (.val 2000) (some 60)]
      [Ann.mk (Obs.mk "A" 2000 50) .undef,
        Ann.mk (Obs.mk "A" 2000 60) (.val ((60 - 50) / 50 * 100)),
        Ann.mk (Obs.mk "B" 2000 1) .undef] (by rfl)).1,
    (load_data_sorted_stable [RawRow.mk (some "B") (.val 2000) (some 1),
        RawRow.mk (some "A") (.val 2000) (some 50),
        RawRow.mk (some "A") (.val 2000) (some 60)]
      [Ann.mk (Obs.mk "A" 2000 50) .undef,
        Ann.mk (Obs.mk "A" 2000 60) (.val ((60 - 50) / 50 * 100)),
        Ann.mk (Obs.mk "B" 2000 1) .undef] (by rfl)).2.1,
    (load_data_sorted_stable [RawRow.mk (some "B") (.val 2000) (some 1),
        RawRow.mk (some "A") (.val 2000) (some 50),
        RawRow.mk (some "A") (.val 2000) (some 60)]
      [Ann.mk (Obs.mk "A" 2000 50) .undef,
        Ann.mk (Obs.mk "A" 2000 60) (.val ((60 - 50) / 50 * 100)),
        Ann.mk (Obs.mk "B" 2000 1) .undef] (by rfl)).2.2 "A" 2000⟩

/-- Counterexample to C8: a single row with a non-integer-coercible year
makes the whole load fail (the claim says malformed rows are dropped
silently and never cause an error), while an input whose rows are all
dropped loads successfully as an empty table (the claim says zero
survivors must be reported as a failure). -/
theorem load_data_error_counterexample :
    load_data [RawRow.mk (some "A") .bad (some 5)] =
      .error "invalid literal for int" ∧
    load_data [RawRow.mk none .na none] = .ok [] :=
  ⟨by rfl, by rfl⟩

/-- C8 (amended): rows with a missing cell are dropped silently and only
shrink the output; the load fails exactly when a row surviving the
null-drop has a non-integer-coercible year; zero surviving rows is not a
failure — the loader returns an empty table. -/
theorem load_data_error_policy (rows : List RawRow) :
    ((load_data rows).isOk = false ↔ ∃ r ∈ dropnaRows rows, r.year.isBad = true) ∧
    (∀ out, load_data rows = .ok out →
      out.length = ((dropnaRows rows).filterMap extractRow).length ∧
      out.length ≤ rows.length) := by
  constructor
  · by_cases hbad : (dropnaRows rows).any (fun r => r.year.isBad) = true
    · rw [load_data_error_of_bad hbad]
      exact iff_of_true rfl (by simpa using List.any_eq_true.mp hbad)
    · have hbad' : ¬ ∃ r ∈ dropnaRows rows, r.year.isBad = true := by
        intro hex
        exact hbad (List.any_eq_true.mpr (by simpa using hex))
      unfold load_data coerceYears
      rw [if_neg hbad]
      simpa [Bind.bind, Except.bind, pure, Except.pure, Except.isOk,
        Except.toBool] using hbad'
  · intro out h
    obtain ⟨-, rfl⟩ := load_data_ok_inv h
    constructor
    · rw [annotate_length, List.length_insertionSort]
    · calc (annotate (List.insertionSort rowLE
          ((dropnaRows rows).filterMap extractRow))).length
          = ((dropnaRows rows).filterMap extractRow).length := by
            rw [annotate_length, List.length_insertionSort]
        _ ≤ (dropnaRows rows).length := List.length_filterMap_le _ _
        _ ≤ rows.length := List.length_filter_le _ _

/-- Witness for C8 (amended): one null row is dropped silently and one good
row survives; the error-characterisation and the length bounds hold on this
concrete input. -/
theorem load_data_error_policy_witness :
    ((load_data [RawRow.mk none .na none, RawRow.mk (some "A") (.val 2000) (some 1)]).isOk
        = false ↔ ∃ r ∈ dropnaRows [RawRow.mk none .na none,
          RawRow.mk (some "A") (.val 2000) (some 1)], r.year.isBad = true) ∧
    ([Ann.mk (Obs.mk "A" 2000 1) .undef].length =
      ((dropnaRows [RawRow.mk none .na none,
        RawRow.mk (some "A") (.val 2000) (some 1)]).filterMap extractRow).length ∧
      [Ann.mk (Obs.mk "A" 2000 1) .undef].length ≤
        [RawRow.mk none .na none, RawRow.mk (some "A") (.val 2000) (some 1)].length) :=
  ⟨(load_data_error_policy [RawRow.mk none .na none,
      RawRow.mk (some "A") (.val 2000) (some 1)]).1,
    (load_data_error_policy [RawRow.mk none .na none,
      RawRow.mk (some "A") (.val 2000) (some 1)]).2
      [Ann.mk (Obs.mk "A" 2000 1) .undef] (by rfl)⟩
